import Mathlib

/-!
Verification development for the RFID access-control system
(main.cpp entry controller, RFIDAuth.h authorization clients,
the AES credential encoder of the encrypted client variant).

The embedding models machine bytes as `Nat` (values < 256 where it
matters), Arduino `String`s as Lean `String`s, `millis()` timestamps as
`Nat`, and network / cipher collaborators (`WiFiClient`, `AES128.runEnc`)
as explicit environment data and function parameters.
-/

namespace AccessControl

/-- Timing constant DOOR_MOVE_TIME from main.cpp: milliseconds for the
door to travel between positions. -/
def DOOR_MOVE_TIME : Nat := 360

/-- Timing constant DOOR_OPEN_TIME from main.cpp: milliseconds the door
stays open before auto-closing. -/
def DOOR_OPEN_TIME : Nat := 3000

/-- Debounce interval debounceDelay from main.cpp, in milliseconds. -/
def debounceDelay : Nat := 50

/-- The lowercase hex digit table hexChars of byteArrayToHexString. -/
def hexCharTable : List Char := "0123456789abcdef".data

/-- Indexing into hexChars, as done by hexChars[byte >> 4] and
hexChars[byte & 0x0F]. -/
def hexDigit (n : Nat) : Char := hexCharTable.getD n '?'

/-- byteArrayToHexString of RFIDAuth.h, character-list form: each byte
contributes hexChars[b >> 4] then hexChars[b & 0x0F]. -/
def byteArrayToHexChars : List Nat → List Char
  | [] => []
  | b :: rest => hexDigit (b / 16) :: hexDigit (b % 16) :: byteArrayToHexChars rest

/-- byteArrayToHexString of RFIDAuth.h as a String. -/
def byteArrayToHexString (a : List Nat) : String :=
  String.mk (byteArrayToHexChars a)

/-- A character of the lowercase hex alphabet. -/
def isLowerHexDigit (c : Char) : Bool := hexCharTable.contains c

/-- Model of Arduino String(b, HEX) for a byte value b < 256: one
lowercase hex digit when b < 16, two otherwise. -/
def natHexChars (b : Nat) : List Char :=
  if b < 16 then [hexDigit b] else [hexDigit (b / 16), hexDigit (b % 16)]

namespace PlainAuth

/-- formatUID of the plaintext RFIDAuth.h variant: per byte, a "0" prefix
when the byte is < 0x10, then String(b, HEX); the result is lowercased
(String(b, HEX) is already lowercase). -/
def formatUID (uidBytes : List Nat) : String :=
  String.mk (uidBytes.foldl
    (fun acc b => acc ++ (if b < 16 then ['0'] else []) ++ natHexChars b) [])

/-- The JSON document built by the plaintext checkCardAuthorization:
doc["UUID"] = deviceUUID; doc["content"] = cardUID. Field order of the
serialized body, as (key, value) pairs. -/
def requestFields (deviceUUID : String) (uidBytes : List Nat) :
    List (String × String) :=
  [("UUID", deviceUUID), ("content", formatUID uidBytes)]

end PlainAuth

/-- Substring search modelling Arduino String.indexOf: index of the first
occurrence of pat in hay, or none. -/
def findSub : List Char → List Char → Option Nat
  | [], pat => if pat.isEmpty then some 0 else none
  | c :: cs, pat =>
      if pat.isPrefixOf (c :: cs) then some 0
      else (findSub cs pat).map (· + 1)

/-- Arduino String.startsWith, modelled on the character lists. -/
def startsWithStr (s pre : String) : Bool := pre.data.isPrefixOf s.data

/-- The authorization test applied to a header line in
checkCardAuthorization: line.indexOf("200") > 0. -/
def indexOf200Pos (line : String) : Bool :=
  match findSub line.data ['2', '0', '0'] with
  | some i => decide (0 < i)
  | none => false

/-- The response-header loop of checkCardAuthorization: for each line
read with readStringUntil, if it starts with "HTTP/1.1" the authorized
flag is reassigned to (indexOf("200") > 0); the loop breaks on the
blank "\r" line; the list ending models client.connected() going false. -/
def scanHeaders : List String → Bool → Bool
  | [], authorized => authorized
  | line :: rest, authorized =>
      let authorized2 :=
        if startsWithStr line "HTTP/1.1" then indexOf200Pos line else authorized
      if line = "\r" then authorized2 else scanHeaders rest authorized2

/-- The wait-for-response loop of checkCardAuthorization: timeout is the
millis() value before the loop; each sample is (millis(), available > 0);
bytes available exits with true, millis() - timeout > 5000 exits with
false (timeout); none models a trace too short to decide the loop. -/
def waitLoop (timeout : Nat) : List (Nat × Bool) → Option Bool
  | [] => none
  | (t, avail) :: rest =>
      if avail then some true
      else if t - timeout > 5000 then some false
      else waitLoop timeout rest

/-- Network-visible actions of one authorization exchange. -/
inductive NetAction where
  | connect : NetAction
  | sendRequest : List (String × String) → NetAction
  | stop : NetAction
deriving DecidableEq, Repr

/-- Environment of one exchange: whether client.connect succeeds, the
millis() value taken before the wait loop, the (millis, available)
samples seen by the wait loop, and the header lines the response yields. -/
structure AuthEnv where
  connectOk : Bool
  t0 : Nat
  waitSamples : List (Nat × Bool)
  respLines : List String
deriving Repr

namespace PlainAuth

/-- checkCardAuthorization of the plaintext RFIDAuth.h variant: connect
(false on failure), build and send the JSON request, wait for the
response under the 5000 ms timeout (client.stop on expiry), scan the
header lines for the verdict, client.stop, return. The result pairs the
returned Bool with the trace of network actions; none means the wait
loop was still spinning when the sample trace ended. -/
def checkCardAuthorization (env : AuthEnv) (deviceUUID : String)
    (uidBytes : List Nat) : Option (Bool × List NetAction) :=
  if env.connectOk = false then some (false, [])
  else
    let fields := requestFields deviceUUID uidBytes
    match waitLoop env.t0 env.waitSamples with
    | none => none
    | some false =>
        some (false, [NetAction.connect, NetAction.sendRequest fields, NetAction.stop])
    | some true =>
        let authorized := scanHeaders env.respLines false
        some (authorized, [NetAction.connect, NetAction.sendRequest fields, NetAction.stop])

end PlainAuth

namespace EncAuth

/-- The 16-byte input buffer of encryptUID (part_001 variant) after
memcpy(input, uidBytes, size) and the PKCS7 pad loop
for i in [size, 16) writing padLength = 16 - (size % 16): for size < 16
this is the credential followed by pad bytes; for size = 16 the pad loop
is empty and the block is the bare credential; for size > 16 the buffer
holds the first 16 credential bytes (the remaining memcpy bytes land
past the end of the buffer). -/
def inputBlock (uidBytes : List Nat) : List Nat :=
  uidBytes.take 16 ++
    List.replicate (16 - uidBytes.length) (16 - uidBytes.length % 16)

/-- Indices written by memcpy(input, uidBytes, uidByteLength) into the
16-byte input buffer: all of [0, size). -/
def memcpyWrittenIndices (size : Nat) : List Nat := List.range size

/-- The declared size of the input buffer of encryptUID: uint8_t input[16]. -/
def inputBufferSize : Nat := 16

/-- encryptUID of the part_001 variant, output pair
(encryptedContent, ivHex): the cipher AES128.runEnc is an external
library collaborator, passed as the parameter enc (key, data, iv). -/
def encryptUID (enc : List Nat → List Nat → List Nat → List Nat)
    (aesKey : List Nat) (uidBytes : List Nat) (iv : List Nat) :
    String × String :=
  (byteArrayToHexString (enc aesKey (inputBlock uidBytes) iv),
   byteArrayToHexString iv)

/-- The JSON document built by the encrypted checkCardAuthorization:
doc["UUID"], doc["iv"], doc["content"], in that order. -/
def requestFields (enc : List Nat → List Nat → List Nat → List Nat)
    (aesKey : List Nat) (deviceUUID : String) (uidBytes : List Nat)
    (iv : List Nat) : List (String × String) :=
  let p := encryptUID enc aesKey uidBytes iv
  [("UUID", deviceUUID), ("iv", p.2), ("content", p.1)]

/-- checkCardAuthorization of the part_001 (encrypting) variant; same
control flow as the plaintext variant, but the request body carries the
IV and the encrypted content. -/
def checkCardAuthorization (env : AuthEnv)
    (enc : List Nat → List Nat → List Nat → List Nat) (aesKey : List Nat)
    (deviceUUID : String) (uidBytes : List Nat) (iv : List Nat) :
    Option (Bool × List NetAction) :=
  if env.connectOk = false then some (false, [])
  else
    let fields := requestFields enc aesKey deviceUUID uidBytes iv
    match waitLoop env.t0 env.waitSamples with
    | none => none
    | some false =>
        some (false, [NetAction.connect, NetAction.sendRequest fields, NetAction.stop])
    | some true =>
        let authorized := scanHeaders env.respLines false
        some (authorized, [NetAction.connect, NetAction.sendRequest fields, NetAction.stop])

end EncAuth

namespace PadAuth

/-- The padding_length computed by addPKCS7Padding (second RFIDAuth.h variant):
16 - (input_length % 16), bumped to 16 when that is 0 (which in fact
never happens, since input_length % 16 is at most 15). -/
def paddingLength (inputLength : Nat) : Nat :=
  let p := 16 - inputLength % 16
  if p = 0 then 16 else p

/-- addPKCS7Padding of the second RFIDAuth.h variant, content of the
output buffer up to the returned length input_length + padding_length:
the input bytes followed by padding_length copies of padding_length. -/
def addPKCS7Padding (input : List Nat) : List Nat :=
  input ++ List.replicate (paddingLength input.length) (paddingLength input.length)

/-- The declared size of the output buffer of addPKCS7Padding:
memset(output, 0, 32) over uint8_t padded_input[32]. -/
def outputBufferSize : Nat := 32

end PadAuth

/-- Modelled from the spec: the status-line reading of section 6,
"status line HTTP/1.1 (code) ...". Parses the three digits following
"HTTP/1.1 " as the numeric status code. This definition follows the
spec's words, for comparison with the source's scanHeaders test. -/
def spec_statusCode (line : String) : Option Nat :=
  if startsWithStr line "HTTP/1.1 " then
    match (line.data.drop 9).take 3 with
    | [a, b, c] =>
        if a.isDigit ∧ b.isDigit ∧ c.isDigit then
          some (100 * (a.toNat - 48) + 10 * (b.toNat - 48) + (c.toNat - 48))
        else none
    | _ => none
  else none

/-- Modelled from the spec: a 2xx-class status line per section 6. -/
def spec_is2xxStatus (line : String) : Bool :=
  match spec_statusCode line with
  | some c => decide (200 ≤ c ∧ c < 300)
  | none => false

/-! Entry controller (main.cpp, first variant): global door and button
state, and the loop body acting on it. -/

/-- The global door and button state variables of main.cpp. The raw pin
levels HIGH and LOW are modelled as true and false. -/
structure CtrlState where
  doorIsOpen : Bool
  lastDoorAction : Nat
  doorOpenStartTime : Nat
  lastButtonState : Bool
  lastDebounceTime : Nat
deriving DecidableEq, Repr

/-- The state at power-up: door closed, timers zero, button released. -/
def initialState : CtrlState :=
  { doorIsOpen := false, lastDoorAction := 0, doorOpenStartTime := 0,
    lastButtonState := true, lastDebounceTime := 0 }

/-- Externally visible actuator and feedback commands of the controller. -/
inductive Action where
  | openDoor : Action
  | closeDoor : Action
  | stopServo : Action
  | signalGranted : Action
  | signalDenied : Action
deriving DecidableEq, Repr

/-- openDoor of main.cpp at millis() = t: drive the servo open, set
doorIsOpen, record lastDoorAction and doorOpenStartTime. -/
def openDoor (t : Nat) (s : CtrlState) : CtrlState :=
  { s with doorIsOpen := true, lastDoorAction := t, doorOpenStartTime := t }

/-- closeDoor of main.cpp at millis() = t: drive the servo closed, clear
doorIsOpen, record lastDoorAction. -/
def closeDoor (t : Nat) (s : CtrlState) : CtrlState :=
  { s with doorIsOpen := false, lastDoorAction := t }

/-- processRFIDCard of main.cpp, given the Bool returned by
checkCardAuthorization: on granted, signal and open the door only if it
is not already open; on denied, signal only. -/
def processRFIDCard (t : Nat) (authorized : Bool) (s : CtrlState) :
    CtrlState × List Action :=
  if authorized then
    if s.doorIsOpen = false then
      (openDoor t s, [Action.signalGranted, Action.openDoor])
    else (s, [Action.signalGranted])
  else (s, [Action.signalDenied])

/-- checkButton of main.cpp at millis() = t with raw sample raw (true =
HIGH): a changed sample resets lastDebounceTime; once
millis() - lastDebounceTime > debounceDelay, a LOW sample with the
movement window elapsed opens the door if it is closed; finally
lastButtonState takes the raw sample. -/
def checkButton (t : Nat) (raw : Bool) (s : CtrlState) :
    CtrlState × List Action :=
  let s1 := if raw ≠ s.lastButtonState then { s with lastDebounceTime := t } else s
  let r :=
    if debounceDelay < t - s1.lastDebounceTime then
      if raw = false ∧ DOOR_MOVE_TIME ≤ t - s1.lastDoorAction then
        if s1.doorIsOpen = false then (openDoor t s1, [Action.openDoor])
        else (s1, [])
      else (s1, [])
    else (s1, [])
  ({ r.1 with lastButtonState := raw }, r.2)

/-- The RFID phase of loop(): PICC_IsNewCardPresent / ReadCardSerial
gate processRFIDCard; card is none when no card is present, some b when
a card's exchange returned b. -/
def cardPhase (t : Nat) (card : Option Bool) (s : CtrlState) :
    CtrlState × List Action :=
  match card with
  | none => (s, ([] : List Action))
  | some authorized => processRFIDCard t authorized s

/-- The movement-complete check of loop():
if millis() - lastDoorAction >= DOOR_MOVE_TIME then stopServo(). -/
def stopPhase (t : Nat) (s : CtrlState) : List Action :=
  if DOOR_MOVE_TIME ≤ t - s.lastDoorAction then [Action.stopServo] else []

/-- The auto-close check of loop(): if doorIsOpen and
millis() - doorOpenStartTime >= DOOR_OPEN_TIME then closeDoor(). -/
def autoClosePhase (t : Nat) (s : CtrlState) : CtrlState × List Action :=
  if s.doorIsOpen = true ∧ DOOR_OPEN_TIME ≤ t - s.doorOpenStartTime then
    (closeDoor t s, [Action.closeDoor])
  else (s, ([] : List Action))

/-- One iteration of loop() in main.cpp at millis() = t: the RFID phase,
the button phase, the movement-complete stopServo check, and the
auto-close check, in the source's order. -/
def loopStep (t : Nat) (card : Option Bool) (raw : Bool) (s : CtrlState) :
    CtrlState × List Action :=
  let p1 := cardPhase t card s
  let p2 := checkButton t raw p1.1
  let a3 := stopPhase t p2.1
  let p4 := autoClosePhase t p2.1
  (p4.1, p1.2 ++ p2.2 ++ a3 ++ p4.2)

/-- A run of successive loop iterations; each item is
(millis, card event, raw button sample); emitted actions are stamped
with their iteration's millis value. -/
def runTrace (s : CtrlState) :
    List (Nat × Option Bool × Bool) → CtrlState × List (Nat × Action)
  | [] => (s, [])
  | (t, card, raw) :: rest =>
      let p := loopStep t card raw s
      let q := runTrace p.1 rest
      (q.1, (p.2.map (fun a => (t, a))) ++ q.2)

/-! Helper lemmas shared by the claim theorems. -/

/-- Door-relevant fields (the flag and the two timers) coincide. -/
def sameDoorFields (s r : CtrlState) : Prop :=
  r.doorIsOpen = s.doorIsOpen ∧ r.lastDoorAction = s.lastDoorAction ∧
    r.doorOpenStartTime = s.doorOpenStartTime

theorem isLowerHexDigit_hexDigit (n : Nat) (h : n < 16) :
    isLowerHexDigit (hexDigit n) = true := by
  interval_cases n <;> decide

theorem byteArrayToHexChars_length (a : List Nat) :
    (byteArrayToHexChars a).length = 2 * a.length := by
  induction a with
  | nil => rfl
  | cons b rest ih => simp [byteArrayToHexChars, ih]; omega

theorem byteArrayToHexChars_lowerHex (a : List Nat) (ha : ∀ b ∈ a, b < 256) :
    ∀ c ∈ byteArrayToHexChars a, isLowerHexDigit c = true := by
  induction a with
  | nil => intro c hc; simp [byteArrayToHexChars] at hc
  | cons b rest ih =>
      intro c hc
      have hb : b < 256 := ha b (by simp)
      have hdiv : b / 16 < 16 := by omega
      have hmod : b % 16 < 16 := Nat.mod_lt _ (by norm_num)
      simp only [byteArrayToHexChars, List.mem_cons] at hc
      rcases hc with h1 | h2 | h3
      · exact h1 ▸ isLowerHexDigit_hexDigit _ hdiv
      · exact h2 ▸ isLowerHexDigit_hexDigit _ hmod
      · exact ih (fun x hx => ha x (by simp [hx])) c h3

theorem getLast?_replicate_pos {α : Type} (n : Nat) (x : α) (h : n ≠ 0) :
    (List.replicate n x).getLast? = some x := by
  induction n with
  | zero => exact absurd rfl h
  | succ m ih =>
      cases m with
      | zero => rfl
      | succ k =>
          rw [List.replicate_succ, List.replicate_succ,
            List.getLast?_cons_cons, ← List.replicate_succ]
          exact ih (by omega)

/-- The header lines actually inspected for the verdict: those strictly
before the first blank line, restricted to status lines. -/
def relevantHttpLines (lines : List String) : List String :=
  (lines.takeWhile (fun l => l ≠ "\r")).filter (fun l => startsWithStr l "HTTP/1.1")

theorem scanHeaders_characterization (lines : List String) (auth : Bool) :
    scanHeaders lines auth =
      ((relevantHttpLines lines).getLast?.map indexOf200Pos).getD auth := by
  induction lines generalizing auth with
  | nil => rfl
  | cons l rest ih =>
      by_cases hblank : l = "\r"
      · subst hblank
        have hpre : startsWithStr "\r" "HTTP/1.1" = false := by decide
        simp [scanHeaders, relevantHttpLines, hpre, List.takeWhile]
      · by_cases hhttp : startsWithStr l "HTTP/1.1"
        · have : relevantHttpLines (l :: rest) = l :: relevantHttpLines rest := by
            simp [relevantHttpLines, List.takeWhile, hblank, List.filter, hhttp]
          rw [this]
          have hstep : scanHeaders (l :: rest) auth
              = scanHeaders rest (indexOf200Pos l) := by
            simp [scanHeaders, hhttp, hblank]
          rw [hstep, ih]
          cases hcase : (relevantHttpLines rest).getLast? with
          | none =>
              have : relevantHttpLines rest = [] :=
                List.getLast?_eq_none_iff.mp hcase
              simp [this]
          | some v =>
              have hne : relevantHttpLines rest ≠ [] := by
                intro hnil; rw [hnil] at hcase; simp at hcase
              have : (l :: relevantHttpLines rest).getLast? =
                  (relevantHttpLines rest).getLast? := by
                cases hr : relevantHttpLines rest with
                | nil => exact absurd hr hne
                | cons a as => rw [List.getLast?_cons_cons]
              simp [this, hcase]
        · have : relevantHttpLines (l :: rest) = relevantHttpLines rest := by
            simp [relevantHttpLines, List.takeWhile, hblank, List.filter, hhttp]
          rw [this]
          have hstep : scanHeaders (l :: rest) auth = scanHeaders rest auth := by
            simp [scanHeaders, hhttp, hblank]
          rw [hstep, ih]

theorem processRFIDCard_doorFields (t : Nat) (a : Bool) (s : CtrlState) :
    sameDoorFields s (processRFIDCard t a s).1 ∨
      ((processRFIDCard t a s).1.doorIsOpen = true ∧
       (processRFIDCard t a s).1.doorOpenStartTime = t ∧ s.doorIsOpen = false) := by
  cases a <;> by_cases h : s.doorIsOpen = false <;>
    simp [processRFIDCard, openDoor, sameDoorFields, h]

theorem checkButton_doorFields (t : Nat) (raw : Bool) (s : CtrlState) :
    sameDoorFields s (checkButton t raw s).1 ∨
      ((checkButton t raw s).1.doorIsOpen = true ∧
       (checkButton t raw s).1.doorOpenStartTime = t ∧ s.doorIsOpen = false) := by
  simp only [checkButton, openDoor, sameDoorFields]
  split_ifs <;> simp_all

theorem processRFIDCard_no_close (t : Nat) (a : Bool) (s : CtrlState) :
    Action.closeDoor ∉ (processRFIDCard t a s).2 := by
  cases a <;> by_cases h : s.doorIsOpen = false <;>
    simp [processRFIDCard, h]

theorem checkButton_acts (t : Nat) (raw : Bool) (s : CtrlState) :
    (checkButton t raw s).2 = [] ∨ (checkButton t raw s).2 = [Action.openDoor] := by
  simp only [checkButton]
  split_ifs <;> simp

theorem processRFIDCard_open_self (t : Nat) (a : Bool) (s : CtrlState)
    (h : s.doorIsOpen = true) : (processRFIDCard t a s).1 = s := by
  cases a <;> simp [processRFIDCard, h]

theorem checkButton_closed_doorFields (t : Nat) (raw : Bool) (s : CtrlState)
    (h : s.doorIsOpen = true ∨ t - s.lastDoorAction < DOOR_MOVE_TIME) :
    (checkButton t raw s).2 = [] ∧ sameDoorFields s (checkButton t raw s).1 := by
  simp only [checkButton, openDoor, sameDoorFields]
  rcases h with h | h <;> (split_ifs <;> simp_all <;> omega)

theorem sameDoorFields_refl (s : CtrlState) : sameDoorFields s s := ⟨rfl, rfl, rfl⟩

theorem doorFields_trans {s a b : CtrlState} {t : Nat}
    (h1 : sameDoorFields s a ∨
      (a.doorIsOpen = true ∧ a.doorOpenStartTime = t ∧ s.doorIsOpen = false))
    (h2 : sameDoorFields a b ∨
      (b.doorIsOpen = true ∧ b.doorOpenStartTime = t ∧ a.doorIsOpen = false)) :
    sameDoorFields s b ∨
      (b.doorIsOpen = true ∧ b.doorOpenStartTime = t ∧ s.doorIsOpen = false) := by
  rcases h1 with ⟨e1, e2, e3⟩ | ⟨e1, e2, e3⟩ <;>
    rcases h2 with ⟨f1, f2, f3⟩ | ⟨f1, f2, f3⟩
  · exact Or.inl ⟨f1.trans e1, f2.trans e2, f3.trans e3⟩
  · exact Or.inr ⟨f1, f2, e1.symm.trans f3⟩
  · exact Or.inr ⟨f1.trans e1, f3.trans e2, e3⟩
  · exact Or.inr ⟨f1, f2, e3⟩

theorem cardPhase_doorFields (t : Nat) (card : Option Bool) (s : CtrlState) :
    sameDoorFields s (cardPhase t card s).1 ∨
      ((cardPhase t card s).1.doorIsOpen = true ∧
       (cardPhase t card s).1.doorOpenStartTime = t ∧ s.doorIsOpen = false) := by
  cases card with
  | none => exact Or.inl (sameDoorFields_refl s)
  | some a => exact processRFIDCard_doorFields t a s

theorem cardPhase_no_close (t : Nat) (card : Option Bool) (s : CtrlState) :
    Action.closeDoor ∉ (cardPhase t card s).2 := by
  cases card with
  | none => simp [cardPhase]
  | some a => exact processRFIDCard_no_close t a s

theorem stopPhase_no_close (t : Nat) (s : CtrlState) :
    Action.closeDoor ∉ stopPhase t s := by
  unfold stopPhase; split_ifs <;> simp

theorem autoClosePhase_close_mem (t : Nat) (s : CtrlState) :
    Action.closeDoor ∈ (autoClosePhase t s).2 ↔
      (s.doorIsOpen = true ∧ DOOR_OPEN_TIME ≤ t - s.doorOpenStartTime) := by
  unfold autoClosePhase; split_ifs with h <;> simp [h]

theorem autoClosePhase_state_closed (t : Nat) (s : CtrlState)
    (h : s.doorIsOpen = true ∧ DOOR_OPEN_TIME ≤ t - s.doorOpenStartTime) :
    (autoClosePhase t s).1.doorIsOpen = false := by
  simp [autoClosePhase, h, closeDoor]

theorem loopStep_state (t : Nat) (card : Option Bool) (raw : Bool) (s : CtrlState) :
    (loopStep t card raw s).1 =
      (autoClosePhase t (checkButton t raw (cardPhase t card s).1).1).1 := rfl

theorem loopStep_acts (t : Nat) (card : Option Bool) (raw : Bool) (s : CtrlState) :
    (loopStep t card raw s).2 =
      (cardPhase t card s).2 ++ (checkButton t raw (cardPhase t card s).1).2 ++
      stopPhase t (checkButton t raw (cardPhase t card s).1).1 ++
      (autoClosePhase t (checkButton t raw (cardPhase t card s).1).1).2 := rfl

theorem close_inherits {s s2 : CtrlState} {t : Nat}
    (hs2 : sameDoorFields s s2 ∨
      (s2.doorIsOpen = true ∧ s2.doorOpenStartTime = t ∧ s.doorIsOpen = false))
    (hC : s2.doorIsOpen = true ∧ DOOR_OPEN_TIME ≤ t - s2.doorOpenStartTime) :
    s.doorIsOpen = true ∧ DOOR_OPEN_TIME ≤ t - s.doorOpenStartTime := by
  rcases hs2 with ⟨e1, _, e3⟩ | ⟨_, e2, _⟩
  · refine ⟨e1.symm.trans hC.1, ?_⟩
    have := hC.2; rw [e3] at this; exact this
  · exfalso
    have := hC.2; rw [e2] at this
    simp [DOOR_OPEN_TIME] at this

/-! Claim C7. -/

/-- Claim C7, counterexample to the claim as stated: the door is opened
at millis 100; the opening movement completes (stopServo) at 460, which
is when the Open state is reached; yet the auto-close closeDoor fires at
3100, only 2640 ms after Open was reached — earlier than the claimed
minimum of DOOR_OPEN_TIME = 3000 ms after reaching Open. -/
theorem claim_C7_counterexample :
    (100, Action.openDoor) ∈
      (runTrace initialState
        [(100, some true, true), (460, none, true), (3100, none, true)]).2 ∧
    (460, Action.stopServo) ∈
      (runTrace initialState
        [(100, some true, true), (460, none, true), (3100, none, true)]).2 ∧
    (3100, Action.closeDoor) ∈
      (runTrace initialState
        [(100, some true, true), (460, none, true), (3100, none, true)]).2 ∧
    3100 - (100 + DOOR_MOVE_TIME) < DOOR_OPEN_TIME := by
  decide

/-- Claim C7, amended: in any loop iteration, closeDoor fires only from
a state whose doorIsOpen flag is set and only once at least
DOOR_OPEN_TIME has elapsed since doorOpenStartTime — the instant open()
was issued (the start, not the completion, of the opening movement);
after it fires the flag is cleared, and no close fires from a
cleared-flag state, so it fires at most once per open cycle. -/
theorem claim_C7_amended_autoclose (s : CtrlState) (t : Nat)
    (card : Option Bool) (raw : Bool) :
    (Action.closeDoor ∈ (loopStep t card raw s).2 →
      s.doorIsOpen = true ∧ DOOR_OPEN_TIME ≤ t - s.doorOpenStartTime ∧
      (loopStep t card raw s).1.doorIsOpen = false) ∧
    (s.doorIsOpen = false → Action.closeDoor ∉ (loopStep t card raw s).2) := by
  have hs2 := doorFields_trans (cardPhase_doorFields t card s)
    (checkButton_doorFields t raw (cardPhase t card s).1)
  constructor
  · intro hmem
    rw [loopStep_acts] at hmem
    simp only [List.mem_append] at hmem
    rcases hmem with ((h1 | h2) | h3) | h4
    · exact absurd h1 (cardPhase_no_close t card s)
    · rcases checkButton_acts t raw (cardPhase t card s).1 with hb | hb <;>
        rw [hb] at h2 <;> simp at h2
    · exact absurd h3 (stopPhase_no_close t _)
    · have hC := (autoClosePhase_close_mem t _).mp h4
      have hmain := close_inherits hs2 hC
      have hfin : (loopStep t card raw s).1.doorIsOpen = false := by
        rw [loopStep_state]; exact autoClosePhase_state_closed t _ hC
      exact ⟨hmain.1, hmain.2, hfin⟩
  · intro hclosed hmem
    rw [loopStep_acts] at hmem
    simp only [List.mem_append] at hmem
    rcases hmem with ((h1 | h2) | h3) | h4
    · exact absurd h1 (cardPhase_no_close t card s)
    · rcases checkButton_acts t raw (cardPhase t card s).1 with hb | hb <;>
        rw [hb] at h2 <;> simp at h2
    · exact absurd h3 (stopPhase_no_close t _)
    · have hC := (autoClosePhase_close_mem t _).mp h4
      have hmain := close_inherits hs2 hC
      rw [hclosed] at hmain
      exact Bool.false_ne_true hmain.1

/-- Claim C7 witness: a concrete iteration where the auto-close fires,
with the amended theorem's hypotheses discharged there. -/
theorem claim_C7_witness :
    { doorIsOpen := true, lastDoorAction := 0, doorOpenStartTime := 0,
      lastButtonState := true, lastDebounceTime := 0 : CtrlState }.doorIsOpen
      = true ∧
    DOOR_OPEN_TIME ≤ 3000 -
      { doorIsOpen := true, lastDoorAction := 0, doorOpenStartTime := 0,
        lastButtonState := true, lastDebounceTime := 0 : CtrlState
        }.doorOpenStartTime ∧
    (loopStep 3000 none true
      { doorIsOpen := true, lastDoorAction := 0, doorOpenStartTime := 0,
        lastButtonState := true, lastDebounceTime := 0 }).1.doorIsOpen = false :=
  (claim_C7_amended_autoclose
    { doorIsOpen := true, lastDoorAction := 0, doorOpenStartTime := 0,
      lastButtonState := true, lastDebounceTime := 0 } 3000 none true).1
    (by decide)

/-! Claim C8. -/

/-- Claim C8, counterexample to the claim as stated: the door opens at
millis 0, auto-closes at 3000, and a granted credential arrives at 3100
— while the close movement begun at 3000 is still in progress
(3100 - 3000 < DOOR_MOVE_TIME, spec state Moving(closeDir), not Closed)
— yet a second openDoor is issued and the timers restart at 3100. -/
theorem claim_C8_counterexample :
    (0, Action.openDoor) ∈
      (runTrace initialState
        [(0, some true, true), (3000, none, true), (3100, some true, true)]).2 ∧
    (3000, Action.closeDoor) ∈
      (runTrace initialState
        [(0, some true, true), (3000, none, true), (3100, some true, true)]).2 ∧
    (3100, Action.openDoor) ∈
      (runTrace initialState
        [(0, some true, true), (3000, none, true), (3100, some true, true)]).2 ∧
    3100 - 3000 < DOOR_MOVE_TIME ∧
    (runTrace initialState
        [(0, some true, true), (3000, none, true), (3100, some true, true)]
      ).1.doorOpenStartTime = 3100 := by
  decide

/-- Claim C8, amended: while doorIsOpen is set (covering Open and
Moving(openDir)), a granted credential only signals — no second open()
and no state change — and a button sample of either level issues no
open() and leaves the door fields unchanged; a button sample within the
movement window (covering Moving(closeDir)) likewise issues no open()
and leaves the door fields unchanged; and a whole loop iteration with a
granted credential while doorIsOpen is set issues no open() and keeps
doorOpenStartTime (hence the auto-close deadline) unchanged. A granted
credential while the close movement is in progress (doorIsOpen already
cleared) is NOT covered: it re-opens the door, per the counterexample. -/
theorem claim_C8_amended_no_reopen (s : CtrlState) (t : Nat) (raw : Bool) :
    (s.doorIsOpen = true → processRFIDCard t true s = (s, [Action.signalGranted])) ∧
    (s.doorIsOpen = true →
      (checkButton t raw s).2 = [] ∧ sameDoorFields s (checkButton t raw s).1) ∧
    (t - s.lastDoorAction < DOOR_MOVE_TIME →
      (checkButton t raw s).2 = [] ∧ sameDoorFields s (checkButton t raw s).1) ∧
    (s.doorIsOpen = true →
      Action.openDoor ∉ (loopStep t (some true) raw s).2 ∧
      (loopStep t (some true) raw s).1.doorOpenStartTime = s.doorOpenStartTime) := by
  refine ⟨?_, ?_, ?_, ?_⟩
  · intro h; simp [processRFIDCard, h]
  · intro h; exact checkButton_closed_doorFields t raw s (Or.inl h)
  · intro h; exact checkButton_closed_doorFields t raw s (Or.inr h)
  · intro h
    have hcard : cardPhase t (some true) s = (s, [Action.signalGranted]) := by
      simp [cardPhase, processRFIDCard, h]
    have hbtn := checkButton_closed_doorFields t raw s (Or.inl h)
    constructor
    · rw [loopStep_acts, hcard]
      simp only [List.mem_append, hbtn.1]
      intro hmem
      rcases hmem with ((h1 | h2) | h3) | h4
      · simp at h1
      · simp at h2
      · unfold stopPhase at h3; split_ifs at h3 <;> simp at h3
      · unfold autoClosePhase at h4; split_ifs at h4 with hc <;>
          simp at h4
    · rw [loopStep_state, hcard]
      rcases hbtn.2 with ⟨_, _, e3⟩
      unfold autoClosePhase
      split_ifs with hc
      · simp [closeDoor, e3]
      · exact e3

/-- Claim C8 witness: the amended theorem applied with the door open at
a concrete state and time. -/
theorem claim_C8_witness :
    processRFIDCard 500 true
      { doorIsOpen := true, lastDoorAction := 100, doorOpenStartTime := 100,
        lastButtonState := true, lastDebounceTime := 0 }
      = ({ doorIsOpen := true, lastDoorAction := 100, doorOpenStartTime := 100,
           lastButtonState := true, lastDebounceTime := 0 },
         [Action.signalGranted]) ∧
    (loopStep 500 (some true) true
      { doorIsOpen := true, lastDoorAction := 100, doorOpenStartTime := 100,
        lastButtonState := true, lastDebounceTime := 0 }).1.doorOpenStartTime
      = 100 := by
  have h := claim_C8_amended_no_reopen
    { doorIsOpen := true, lastDoorAction := 100, doorOpenStartTime := 100,
      lastButtonState := true, lastDebounceTime := 0 } 500 true
  exact ⟨h.1 (by decide), (h.2.2.2 (by decide)).2⟩

/-! Claim C9. -/

/-- Claim C9, counterexample to the claim as stated: a raw LOW sample
with the previous sample also LOW, held for exactly the debounce
interval (50 ms) since the last raw transition, with the door closed and
the movement window elapsed, produces no accepted press: checkButton
emits nothing (the source requires strictly more than debounceDelay). -/
theorem claim_C9_counterexample :
    1050 - 1000 = debounceDelay ∧
    ({ doorIsOpen := false, lastDoorAction := 0, doorOpenStartTime := 0,
       lastButtonState := false, lastDebounceTime := 1000 : CtrlState
       }).doorIsOpen = false ∧
    DOOR_MOVE_TIME ≤ 1050 - 0 ∧
    (checkButton 1050 false
      { doorIsOpen := false, lastDoorAction := 0, doorOpenStartTime := 0,
        lastButtonState := false, lastDebounceTime := 1000 }).2 = [] := by
  decide

/-- Claim C9, amended: a raw level held stably for less than the
debounce interval since the last observed raw transition produces no
accepted press (no open action), while a raw LOW held for strictly more
than the debounce interval, with the door closed and the movement window
elapsed, does produce the accepted press (openDoor is emitted). -/
theorem claim_C9_amended_debounce (s : CtrlState) (t : Nat) (raw : Bool) :
    (t - s.lastDebounceTime < debounceDelay →
      Action.openDoor ∉ (checkButton t raw s).2) ∧
    (s.lastButtonState = false → debounceDelay < t - s.lastDebounceTime →
      s.doorIsOpen = false → DOOR_MOVE_TIME ≤ t - s.lastDoorAction →
      Action.openDoor ∈ (checkButton t false s).2) := by
  constructor
  · intro hlt
    simp only [checkButton]
    split_ifs with h1 h2 h3 h4 <;> simp_all
    all_goals omega
  · intro hprev hheld hclosed hmove
    have hne : ¬(false ≠ s.lastButtonState) := by simp [hprev]
    simp [checkButton, hne, hheld, hclosed, hmove]

/-- Claim C9 witness: both amended parts at concrete states. -/
theorem claim_C9_witness :
    Action.openDoor ∉
      (checkButton 1020 false
        { doorIsOpen := false, lastDoorAction := 0, doorOpenStartTime := 0,
          lastButtonState := false, lastDebounceTime := 1000 }).2 ∧
    Action.openDoor ∈
      (checkButton 1100 false
        { doorIsOpen := false, lastDoorAction := 0, doorOpenStartTime := 0,
          lastButtonState := false, lastDebounceTime := 1000 }).2 := by
  have h1 := (claim_C9_amended_debounce
    { doorIsOpen := false, lastDoorAction := 0, doorOpenStartTime := 0,
      lastButtonState := false, lastDebounceTime := 1000 } 1020 false).1
  have h2 := (claim_C9_amended_debounce
    { doorIsOpen := false, lastDoorAction := 0, doorOpenStartTime := 0,
      lastButtonState := false, lastDebounceTime := 1000 } 1100 false).2
  exact ⟨h1 (by decide), h2 (by decide) (by decide) (by decide) (by decide)⟩

/-! Claim C10. -/

/-- Claim C10: the accepted button press is level-triggered. In any loop
iteration whose raw sample is LOW with no new edge (the previous sample
was already LOW), with strictly more than the debounce interval elapsed
since the last raw transition, the movement window elapsed, and the door
closed, checkButton opens the door again — so a continuously held button
re-opens the door right after each auto-close cycle. -/
theorem claim_C10_level_triggered_button (s : CtrlState) (t : Nat)
    (hprev : s.lastButtonState = false)
    (hheld : debounceDelay < t - s.lastDebounceTime)
    (hmove : DOOR_MOVE_TIME ≤ t - s.lastDoorAction)
    (hclosed : s.doorIsOpen = false) :
    Action.openDoor ∈ (loopStep t none false s).2 ∧
    (loopStep t none false s).1.doorIsOpen = true := by
  have hne : ¬(false ≠ s.lastButtonState) := by simp [hprev]
  have hbtn : checkButton t false s =
      ({ doorIsOpen := true, lastDoorAction := t, doorOpenStartTime := t,
         lastButtonState := false, lastDebounceTime := s.lastDebounceTime },
       [Action.openDoor]) := by
    simp [checkButton, openDoor, hne, hheld, hclosed, hmove]
  have hcard : cardPhase t none s = (s, []) := rfl
  constructor
  · rw [loopStep_acts, hcard, hbtn]
    simp
  · rw [loopStep_state, hcard, hbtn]
    simp [autoClosePhase, closeDoor, DOOR_OPEN_TIME]

/-- Claim C10 witness: the level-triggered re-open at a concrete state:
the button has been LOW since millis 0, the door auto-closed at 3000,
and at 4000 the still-held button opens the door again with no new edge. -/
theorem claim_C10_witness :
    Action.openDoor ∈
      (loopStep 4000 none false
        { doorIsOpen := false, lastDoorAction := 3000, doorOpenStartTime := 100,
          lastButtonState := false, lastDebounceTime := 0 }).2 ∧
    (loopStep 4000 none false
      { doorIsOpen := false, lastDoorAction := 3000, doorOpenStartTime := 100,
        lastButtonState := false, lastDebounceTime := 0 }).1.doorIsOpen = true :=
  claim_C10_level_triggered_button
    { doorIsOpen := false, lastDoorAction := 3000, doorOpenStartTime := 100,
      lastButtonState := false, lastDebounceTime := 0 } 4000
    (by decide) (by decide) (by decide) (by decide)

/-! Case analysis of the authorization exchange, shared by the claims
about the client. -/

theorem checkCardAuthorization_cases (env : AuthEnv) (dev : String)
    (uid : List Nat) :
    (env.connectOk = false ∧
      PlainAuth.checkCardAuthorization env dev uid = some (false, [])) ∨
    (env.connectOk = true ∧ waitLoop env.t0 env.waitSamples = none ∧
      PlainAuth.checkCardAuthorization env dev uid = none) ∨
    (env.connectOk = true ∧ waitLoop env.t0 env.waitSamples = some false ∧
      PlainAuth.checkCardAuthorization env dev uid
        = some (false,
            [NetAction.connect,
             NetAction.sendRequest (PlainAuth.requestFields dev uid),
             NetAction.stop])) ∨
    (env.connectOk = true ∧ waitLoop env.t0 env.waitSamples = some true ∧
      PlainAuth.checkCardAuthorization env dev uid
        = some (scanHeaders env.respLines false,
            [NetAction.connect,
             NetAction.sendRequest (PlainAuth.requestFields dev uid),
             NetAction.stop])) := by
  by_cases hc : env.connectOk = false
  · exact Or.inl ⟨hc, by unfold PlainAuth.checkCardAuthorization; rw [if_pos hc]⟩
  · have hc2 : env.connectOk = true := by
      revert hc; cases env.connectOk <;> simp
    cases hw : waitLoop env.t0 env.waitSamples with
    | none =>
        refine Or.inr (Or.inl ⟨hc2, rfl, ?_⟩)
        unfold PlainAuth.checkCardAuthorization
        rw [if_neg hc, hw]
    | some b =>
        cases b with
        | false =>
            refine Or.inr (Or.inr (Or.inl ⟨hc2, rfl, ?_⟩))
            unfold PlainAuth.checkCardAuthorization
            rw [if_neg hc, hw]
        | true =>
            refine Or.inr (Or.inr (Or.inr ⟨hc2, rfl, ?_⟩))
            unfold PlainAuth.checkCardAuthorization
            rw [if_neg hc, hw]

/-! Claim C1. -/

/-- Claim C1: every exchange that ends in connection failure, timeout,
or a header scan that does not grant (malformed response or explicit
denial) returns false, and processRFIDCard on a false result leaves the
controller state (doorIsOpen, lastDoorAction, doorOpenStartTime)
untouched and issues no openDoor. -/
theorem claim_C1_error_paths_fail_closed (env : AuthEnv) (deviceUUID : String)
    (uidBytes : List Nat) (s : CtrlState) (t : Nat) (r : Bool)
    (tr : List NetAction)
    (hrun : PlainAuth.checkCardAuthorization env deviceUUID uidBytes = some (r, tr))
    (herr : env.connectOk = false ∨ waitLoop env.t0 env.waitSamples = some false ∨
            scanHeaders env.respLines false = false) :
    r = false ∧ (processRFIDCard t r s).1 = s ∧
    Action.openDoor ∉ (processRFIDCard t r s).2 := by
  have hr : r = false := by
    rcases checkCardAuthorization_cases env deviceUUID uidBytes with
      ⟨hc, heq⟩ | ⟨hc, hw, heq⟩ | ⟨hc, hw, heq⟩ | ⟨hc, hw, heq⟩
    · rw [heq] at hrun
      simp only [Option.some.injEq, Prod.mk.injEq] at hrun
      exact hrun.1.symm
    · rw [heq] at hrun; exact absurd hrun (by simp)
    · rw [heq] at hrun
      simp only [Option.some.injEq, Prod.mk.injEq] at hrun
      exact hrun.1.symm
    · rw [heq] at hrun
      simp only [Option.some.injEq, Prod.mk.injEq] at hrun
      rcases herr with h | h | h
      · rw [hc] at h; exact absurd h (by simp)
      · rw [hw] at h; exact absurd h (by simp)
      · rw [← hrun.1, h]
  subst hr
  exact ⟨rfl, by simp [processRFIDCard], by simp [processRFIDCard]⟩

/-- Claim C1 witness: an explicit 403 denial returns false and the
controller step leaves the state unchanged with no openDoor. -/
theorem claim_C1_witness :
    false = false ∧
    (processRFIDCard 5 false initialState).1 = initialState ∧
    Action.openDoor ∉ (processRFIDCard 5 false initialState).2 :=
  claim_C1_error_paths_fail_closed
    { connectOk := true, t0 := 0, waitSamples := [(0, true)],
      respLines := ["HTTP/1.1 403 Forbidden\r", "\r"] }
    "device-1" [18, 52, 86, 120] initialState 5 false
    [NetAction.connect,
     NetAction.sendRequest (PlainAuth.requestFields "device-1" [18, 52, 86, 120]),
     NetAction.stop]
    (by decide) (Or.inr (Or.inr (by decide)))

/-! Claim C6. -/

/-- Claim C6: whenever the connection was established and the exchange
returns, client.stop appears in the network trace — on the timeout path
as well as the parse/denial/success path — and a timeout verdict returns
not-granted. -/
theorem claim_C6_connection_closed (env : AuthEnv) (deviceUUID : String)
    (uidBytes : List Nat) (r : Bool) (tr : List NetAction)
    (hc : env.connectOk = true)
    (hrun : PlainAuth.checkCardAuthorization env deviceUUID uidBytes = some (r, tr)) :
    NetAction.stop ∈ tr ∧
    (waitLoop env.t0 env.waitSamples = some false → r = false) := by
  rcases checkCardAuthorization_cases env deviceUUID uidBytes with
    ⟨hcf, _⟩ | ⟨_, hw, heq⟩ | ⟨_, hw, heq⟩ | ⟨_, hw, heq⟩
  · rw [hc] at hcf; exact absurd hcf (by simp)
  · rw [heq] at hrun; exact absurd hrun (by simp)
  · rw [heq] at hrun
    simp only [Option.some.injEq, Prod.mk.injEq] at hrun
    constructor
    · rw [← hrun.2]; simp
    · intro _; exact hrun.1.symm
  · rw [heq] at hrun
    simp only [Option.some.injEq, Prod.mk.injEq] at hrun
    constructor
    · rw [← hrun.2]; simp
    · intro hcontra; rw [hw] at hcontra; exact absurd hcontra (by simp)

/-- Claim C6 witness: a timed-out exchange (first bytes never arrive
within 5000 ms) returns false with stop in its trace. -/
theorem claim_C6_witness :
    NetAction.stop ∈
      [NetAction.connect,
       NetAction.sendRequest (PlainAuth.requestFields "device-1" [1]),
       NetAction.stop] ∧
    (waitLoop 0 [(6000, false)] = some false → false = false) :=
  claim_C6_connection_closed
    { connectOk := true, t0 := 0, waitSamples := [(6000, false)], respLines := [] }
    "device-1" [1] false
    [NetAction.connect,
     NetAction.sendRequest (PlainAuth.requestFields "device-1" [1]),
     NetAction.stop]
    (by decide) (by decide)

/-! Claim C5. -/

/-- Claim C5, counterexample to the claim as stated: a response whose
status line carries the 2xx code 204 yields false, and a response whose
status line carries the non-2xx code 404 but mentions "200" later in
the line yields true — the source tests indexOf("200") > 0, not the
status-code class. -/
theorem claim_C5_counterexample :
    spec_is2xxStatus "HTTP/1.1 204 No Content\r" = true ∧
    scanHeaders ["HTTP/1.1 204 No Content\r", "\r"] false = false ∧
    spec_is2xxStatus "HTTP/1.1 404 error 200\r" = false ∧
    scanHeaders ["HTTP/1.1 404 error 200\r", "\r"] false = true ∧
    PlainAuth.checkCardAuthorization
      { connectOk := true, t0 := 0, waitSamples := [(0, true)],
        respLines := ["HTTP/1.1 204 No Content\r", "\r"] } "device-1" [1]
      = some (false,
        [NetAction.connect,
         NetAction.sendRequest (PlainAuth.requestFields "device-1" [1]),
         NetAction.stop]) := by
  decide

/-- Claim C5, amended: when the connection succeeds and response bytes
arrive in time, checkCardAuthorization returns true iff among the header
lines strictly before the first blank line, the last one starting with
"HTTP/1.1" exists and contains the substring "200" at a position
greater than zero; with no such line the result is false. -/
theorem claim_C5_amended_status_check (env : AuthEnv) (deviceUUID : String)
    (uidBytes : List Nat) (r : Bool) (tr : List NetAction)
    (hrun : PlainAuth.checkCardAuthorization env deviceUUID uidBytes = some (r, tr))
    (hc : env.connectOk = true)
    (hw : waitLoop env.t0 env.waitSamples = some true) :
    r = ((relevantHttpLines env.respLines).getLast?.map indexOf200Pos).getD false := by
  rcases checkCardAuthorization_cases env deviceUUID uidBytes with
    ⟨hcf, _⟩ | ⟨_, hw2, heq⟩ | ⟨_, hw2, heq⟩ | ⟨_, hw2, heq⟩
  · rw [hc] at hcf; exact absurd hcf (by simp)
  · rw [hw2] at hw; exact absurd hw (by simp)
  · rw [hw2] at hw; exact absurd hw (by simp)
  · rw [heq] at hrun
    simp only [Option.some.injEq, Prod.mk.injEq] at hrun
    rw [← hrun.1]
    exact scanHeaders_characterization env.respLines false

/-- Claim C5 witness: a plain 200 response is reported granted and
matches the last-status-line characterization. -/
theorem claim_C5_witness :
    true =
      ((relevantHttpLines ["HTTP/1.1 200 OK\r", "\r"]).getLast?.map
        indexOf200Pos).getD false :=
  claim_C5_amended_status_check
    { connectOk := true, t0 := 0, waitSamples := [(0, true)],
      respLines := ["HTTP/1.1 200 OK\r", "\r"] }
    "device-1" [1] true
    [NetAction.connect,
     NetAction.sendRequest (PlainAuth.requestFields "device-1" [1]),
     NetAction.stop]
    (by decide) (by decide) (by decide)

/-! Claim C2. -/

theorem inputBlock_length (u : List Nat) : (EncAuth.inputBlock u).length = 16 := by
  unfold EncAuth.inputBlock
  simp only [List.length_append, List.length_take, List.length_replicate]
  omega

/-- Claim C2, counterexample to the claim as stated: a scan through the
plaintext RFIDAuth.h client transmits a body whose fields are only UUID
and content — there is no iv field — and the content value is the raw
credential's hex string (the plaintext), unencrypted. -/
theorem claim_C2_counterexample :
    PlainAuth.checkCardAuthorization
      { connectOk := true, t0 := 0, waitSamples := [(0, true)],
        respLines := ["HTTP/1.1 403 Forbidden\r", "\r"] }
      "device-1" [18, 52, 86, 120]
      = some (false,
        [NetAction.connect,
         NetAction.sendRequest [("UUID", "device-1"), ("content", "12345678")],
         NetAction.stop]) ∧
    (PlainAuth.requestFields "device-1" [18, 52, 86, 120]).map Prod.fst
      = ["UUID", "content"] ∧
    ¬((["UUID", "content"] : List String) = ["UUID", "iv", "content"]) ∧
    PlainAuth.formatUID [18, 52, 86, 120] = "12345678" := by
  decide

/-- Claim C2, amended (for the part_001 encrypting client): the request
body's fields are exactly UUID, iv, content in that order; iv is the
32-character lowercase-hex encoding of the 16-byte IV; content is the
32-character lowercase-hex encoding of the single cipher block produced
by the cipher on the padded credential block — the cipher output, not
the credential plaintext. The plaintext variant of RFIDAuth.h violates
the original claim, per the counterexample. -/
theorem claim_C2_amended_request_fields
    (enc : List Nat → List Nat → List Nat → List Nat) (aesKey : List Nat)
    (deviceUUID : String) (uidBytes iv : List Nat)
    (hivlen : iv.length = 16)
    (hivb : ∀ b ∈ iv, b < 256)
    (hlen : ∀ k d i, (enc k d i).length = d.length)
    (hcb : ∀ b ∈ enc aesKey (EncAuth.inputBlock uidBytes) iv, b < 256) :
    (EncAuth.requestFields enc aesKey deviceUUID uidBytes iv).map Prod.fst
      = ["UUID", "iv", "content"] ∧
    (byteArrayToHexString iv).length = 32 ∧
    (byteArrayToHexString iv).data.all isLowerHexDigit = true ∧
    (EncAuth.encryptUID enc aesKey uidBytes iv).1.length = 32 ∧
    (EncAuth.encryptUID enc aesKey uidBytes iv).1.data.all isLowerHexDigit = true ∧
    (EncAuth.encryptUID enc aesKey uidBytes iv).1
      = byteArrayToHexString (enc aesKey (EncAuth.inputBlock uidBytes) iv) := by
  refine ⟨rfl, ?_, ?_, ?_, ?_, rfl⟩
  · show (byteArrayToHexChars iv).length = 32
    rw [byteArrayToHexChars_length, hivlen]
  · show (byteArrayToHexChars iv).all isLowerHexDigit = true
    rw [List.all_eq_true]
    exact byteArrayToHexChars_lowerHex iv hivb
  · show (byteArrayToHexChars (enc aesKey (EncAuth.inputBlock uidBytes) iv)).length = 32
    rw [byteArrayToHexChars_length, hlen, inputBlock_length]
  · show (byteArrayToHexChars (enc aesKey (EncAuth.inputBlock uidBytes) iv)).all
        isLowerHexDigit = true
    rw [List.all_eq_true]
    exact byteArrayToHexChars_lowerHex _ hcb

/-- Claim C2 witness: the amended theorem at a concrete credential, IV
and a length-preserving cipher. -/
theorem claim_C2_witness :
    (EncAuth.requestFields (fun _ d _ => d) [] "device-1" [18, 52, 86, 120]
        (List.replicate 16 0)).map Prod.fst = ["UUID", "iv", "content"] ∧
    (byteArrayToHexString (List.replicate 16 0)).length = 32 ∧
    (byteArrayToHexString (List.replicate 16 0)).data.all isLowerHexDigit = true ∧
    (EncAuth.encryptUID (fun _ d _ => d) [] [18, 52, 86, 120]
        (List.replicate 16 0)).1.length = 32 ∧
    (EncAuth.encryptUID (fun _ d _ => d) [] [18, 52, 86, 120]
        (List.replicate 16 0)).1.data.all isLowerHexDigit = true ∧
    (EncAuth.encryptUID (fun _ d _ => d) [] [18, 52, 86, 120]
        (List.replicate 16 0)).1
      = byteArrayToHexString ((fun _ d _ => d) ([] : List Nat)
          (EncAuth.inputBlock [18, 52, 86, 120]) (List.replicate 16 0)) :=
  claim_C2_amended_request_fields (fun _ d _ => d) [] "device-1"
    [18, 52, 86, 120] (List.replicate 16 0)
    (by decide) (by decide) (fun _ _ _ => rfl) (by decide)

/-! Claim C3. -/

/-- Claim C3: the code is at odds with the claim (and the spec text it
restates). For a 17-byte credential, encryptUID performs no length
check and signals no error: memcpy writes index 16 — one past the end
of the 16-byte input buffer (inputBufferSize ∈ writtenIndices), the
in-buffer block is the silently truncated first 16 bytes with no
padding, and encryption proceeds, yielding a normal 32-hex-char content. -/
theorem claim_C3_code_bug_overflow :
    EncAuth.inputBufferSize ∈ EncAuth.memcpyWrittenIndices 17 ∧
    EncAuth.inputBlock (List.replicate 17 7) = List.replicate 16 7 ∧
    (EncAuth.encryptUID (fun _ d _ => d) (List.replicate 16 0)
        (List.replicate 17 7) (List.replicate 16 0)).1.length = 32 := by
  decide

/-! Claim C4. -/

/-- Claim C4, counterexample to the claim as stated: at credential
length 16, the claimed pad count is P = 16 − (16 mod 16) = 16, but the
part_001 encoder's pad loop is empty — the block is the bare credential
and its final byte is the credential's last byte (1 here), not P = 16 —
while the addPKCS7Padding variant emits 32 bytes (two blocks), not
exactly one 16-byte block. -/
theorem claim_C4_counterexample :
    EncAuth.inputBlock (List.replicate 16 1) = List.replicate 16 1 ∧
    (EncAuth.inputBlock (List.replicate 16 1)).getLast? = some 1 ∧
    16 - (16 % 16) = 16 ∧ ¬((1 : Nat) = 16) ∧
    (PadAuth.addPKCS7Padding (List.replicate 16 1)).length = 32 := by
  decide

/-- Claim C4, amended: for credential lengths 1 to 15, both encoders
produce exactly one padded 16-byte block — the credential bytes followed
by P = 16 − len pad bytes each equal to P, with P ∈ [1, 15] and the
block's final byte equal to P. (At length 16 the claim fails, per the
counterexample.) -/
theorem claim_C4_amended_padding (input : List Nat)
    (h1 : 1 ≤ input.length) (h2 : input.length ≤ 15) :
    EncAuth.inputBlock input
      = input ++ List.replicate (16 - input.length) (16 - input.length) ∧
    (EncAuth.inputBlock input).length = 16 ∧
    (EncAuth.inputBlock input).getLast? = some (16 - input.length) ∧
    PadAuth.addPKCS7Padding input
      = input ++ List.replicate (16 - input.length) (16 - input.length) ∧
    1 ≤ 16 - input.length ∧ 16 - input.length ≤ 15 := by
  have hmod : input.length % 16 = input.length := Nat.mod_eq_of_lt (by omega)
  have htake : input.take 16 = input := List.take_of_length_le (by omega)
  have hblock : EncAuth.inputBlock input
      = input ++ List.replicate (16 - input.length) (16 - input.length) := by
    unfold EncAuth.inputBlock
    rw [hmod, htake]
  refine ⟨hblock, ?_, ?_, ?_, by omega, by omega⟩
  · rw [hblock]
    simp only [List.length_append, List.length_replicate]
    omega
  · rw [hblock]
    rw [List.getLast?_append_of_ne_nil]
    · exact getLast?_replicate_pos _ _ (by omega)
    · intro hnil
      rw [List.replicate_eq_nil_iff] at hnil
      omega
  · unfold PadAuth.addPKCS7Padding PadAuth.paddingLength
    rw [hmod]
    have hne : ¬(16 - input.length = 0) := by omega
    simp [hne]

/-- Claim C4 witness: the amended theorem at the 4-byte credential
[1, 2, 3, 4], whose pad is 12 bytes of value 12. -/
theorem claim_C4_witness :
    EncAuth.inputBlock [1, 2, 3, 4] = [1, 2, 3, 4] ++ List.replicate 12 12 ∧
    (EncAuth.inputBlock [1, 2, 3, 4]).length = 16 ∧
    (EncAuth.inputBlock [1, 2, 3, 4]).getLast? = some 12 ∧
    PadAuth.addPKCS7Padding [1, 2, 3, 4]
      = [1, 2, 3, 4] ++ List.replicate 12 12 ∧
    1 ≤ 12 ∧ 12 ≤ 15 :=
  claim_C4_amended_padding [1, 2, 3, 4] (by decide) (by decide)

end AccessControl
